import Mathlib

/-!
# usePodWs: the pod chat WebSocket hook

A shallow embedding of `client/src/hooks/usePodWs.js`.

The hook keeps two React refs (`clientRef`, `subscriptionRef`), builds one STOMP client per
effect run and wires three closures into it (`onConnect`, `onDisconnect`, the subscription
message handler), returns a cleanup closure from the effect and exposes `send`.

The embedding is explicit state passing over `Hook`: the two refs, the clients built so far,
the subscriptions created so far, the subscriptions not yet unsubscribed, and the trace of
every observable call the hook makes (transport calls, console output, consumer callback).
What the hook does not decide itself is an input of the model: whether a transport call
raises (`Outcome`), whether the consumer callback raises, and the two JSON builtins
(`Runtime`).
-/

namespace UsePodWs

/-! ## Values -/

/-- The values of the `podId` prop: `undefined`, `null` or a string (pod ids are strings). -/
inductive PodId where
  | undefined
  | null
  | str (s : String)
  deriving DecidableEq, Repr

/-- JavaScript truthiness of a `podId` (the test behind `if (!podId) return`). -/
def PodId.truthy : PodId → Bool
  | .str s => !(s == "")
  | _ => false

/-- How a `podId` prints inside a template literal. -/
def PodId.template : PodId → String
  | .undefined => "undefined"
  | .null => "null"
  | .str s => s

/-- Inbound topic of a pod: the template literal "/topic/pod.$(podId).chat". -/
def topic (podId : PodId) : String :=
  "/topic/pod." ++ podId.template ++ ".chat"

/-- Outbound destination of a pod: the template literal "/app/pod.$(podId).chat". -/
def destination (podId : PodId) : String :=
  "/app/pod." ++ podId.template ++ ".chat"

/-- Whether a call into the transport returns or raises; chosen by the environment. -/
inductive Outcome where
  | ok
  | raise
  deriving DecidableEq, Repr

/-- How a block of statements ends. -/
inductive Completion where
  | normal
  | raised
  deriving DecidableEq, Repr

/-- Result of evaluating an expression: a value, or an exception. -/
inductive Res (β : Type) where
  | ret (v : β)
  | threw
  deriving DecidableEq, Repr

/-- The JavaScript values a call of `send` can hand back to its caller. -/
inductive JsValue where
  | undefined
  | boolean (b : Bool)
  deriving DecidableEq, Repr

/-- The two JSON builtins the hook calls, over payloads of type `α`.
`parse body = none` stands for `JSON.parse` raising a `SyntaxError`;
`stringify p = .threw` for `JSON.stringify` raising, `.ret none` for it returning `undefined`. -/
structure Runtime (α : Type) where
  parse : String → Option α
  stringify : α → Res (Option String)

/-- Console levels used by the hook. -/
inductive Level where
  | log
  | warn
  | error
  deriving DecidableEq, Repr

/-- Observable calls made by the hook, in program order. -/
inductive Action (α : Type) where
  | console (lvl : Level) (msg : String)
  | construct (c : Nat)
  | activate (c : Nat)
  | deactivate (c : Nat)
  | subscribe (c : Nat) (dest : String)
  | unsubscribe (s : Nat)
  | publish (c : Nat) (dest : String) (body : Option String)
  | callback (cb : Nat) (payload : α)
  deriving DecidableEq, Repr

/-! ## State -/

/-- A STOMP client built by one effect run, with what its closures captured
(`podId`, `onMessage`) and the two flags the transport keeps for it. -/
structure Client where
  podId : PodId
  onMessage : Option Nat
  active : Bool
  connected : Bool
  deriving DecidableEq, Repr

/-- A subscription handle returned by `client.subscribe`, with what its message handler
captured. -/
structure Sub where
  client : Nat
  dest : String
  podId : PodId
  onMessage : Option Nat
  deriving DecidableEq, Repr

/-- State of one hook instance. Clients and subscriptions are named by their index in
`clients` and `subs`; `live` lists the subscriptions created and not yet unsubscribed. -/
structure Hook (α : Type) where
  clientRef : Option Nat
  subscriptionRef : Option Nat
  clients : List Client
  subs : List Sub
  live : List Nat
  trace : List (Action α)
  deriving DecidableEq, Repr

variable {α : Type}

/-- The hook right after `useRef(null)` twice. -/
def init : Hook α :=
  { clientRef := none, subscriptionRef := none, clients := [], subs := [], live := [], trace := [] }

/-- Record one observable call. -/
def Hook.emit (st : Hook α) (a : Action α) : Hook α :=
  { st with trace := st.trace ++ [a] }

/-- Apply `f` to the element at position `i`, if there is one. -/
def updateAt {β : Type} (f : β → β) : Nat → List β → List β
  | _, [] => []
  | 0, x :: xs => f x :: xs
  | n + 1, x :: xs => x :: updateAt f n xs

/-- Is a call one into the transport (anything but console output and the consumer callback)? -/
def Action.isTransport : Action α → Bool
  | .console _ _ => false
  | .callback _ _ => false
  | _ => true

/-- The transport calls of a trace. -/
def calls (tr : List (Action α)) : List (Action α) :=
  tr.filter Action.isTransport

/-- The consumer callback invocations of a trace: which callback, with which payload. -/
def callbacks : List (Action α) → List (Nat × α)
  | [] => []
  | .callback cb p :: tr => (cb, p) :: callbacks tr
  | _ :: tr => callbacks tr

/-- The `publish` calls of a trace. -/
def publishes : List (Action α) → List (Nat × String × Option String)
  | [] => []
  | .publish c d b :: tr => (c, d, b) :: publishes tr
  | _ :: tr => publishes tr

/-! ## The transport, as the hook sees it -/

/-- The call `new Client(...)`: a fresh client, neither active nor connected. -/
def construct (podId : PodId) (onMessage : Option Nat) (st : Hook α) : Nat × Hook α :=
  let c := st.clients.length
  (c, ({ st with clients := st.clients ++
      [({ podId := podId, onMessage := onMessage, active := false, connected := false } : Client)] }).emit
    (.construct c))

/-- The call `client.activate()`. -/
def activate (c : Nat) (st : Hook α) : Hook α :=
  ({ st with clients := updateAt (fun cl => { cl with active := true }) c st.clients }).emit
    (.activate c)

/-- The call `client.deactivate()`: an async function, so it never raises synchronously. -/
def deactivate (c : Nat) (st : Hook α) : Hook α :=
  ({ st with clients := updateAt (fun cl => { cl with active := false }) c st.clients }).emit
    (.deactivate c)

/-- The transport sets the `connected` flag of a client. -/
def setConnected (c : Nat) (b : Bool) (st : Hook α) : Hook α :=
  { st with clients := updateAt (fun cl => { cl with connected := b }) c st.clients }

/-- The call `client.subscribe(dest, handler)`: on success a fresh live handle. -/
def subscribe (c : Nat) (podId : PodId) (onMessage : Option Nat) (o : Outcome) (st : Hook α) :
    Option Nat × Hook α :=
  let st1 := st.emit (.subscribe c (topic podId))
  match o with
  | .raise => (none, st1)
  | .ok =>
    let s := st1.subs.length
    (some s, { st1 with
      subs := st1.subs ++
        [({ client := c, dest := topic podId, podId := podId, onMessage := onMessage } : Sub)],
      live := st1.live ++ [s] })

/-- The call `handle.unsubscribe()`: on success the handle is no longer live. When the call
raises the handle is kept in `live`: the broker was not told, and the model goes on delivering
frames to it, which is more than the transport library may do after a failed unsubscribe. -/
def unsubscribe (s : Nat) (o : Outcome) (st : Hook α) : Completion × Hook α :=
  let st1 := st.emit (.unsubscribe s)
  match o with
  | .raise => (.raised, st1)
  | .ok => (.normal, { st1 with live := st1.live.filter (fun i => i != s) })

/-- The `connected` getter of the client held in `clientRef`. -/
def connectedOf (st : Hook α) (c : Nat) : Bool :=
  match st.clients[c]? with
  | some cl => cl.connected
  | none => false

/-! ## The hook -/

/-- The message handler passed to `client.subscribe` (lines 27-39). -/
def handler (rt : Runtime α) (podId : PodId) (onMessage : Option Nat) (body : String)
    (cbRaises : Bool) (st : Hook α) : Completion × Hook α :=
  let tried : Completion × Hook α :=
    match rt.parse body with
    | none => (.raised, st)
    | some payload =>
      let st1 := st.emit
        (.console .log ("💬 Real-time message received for pod " ++ podId.template ++ ":"))
      match onMessage with
      | none => (.normal, st1)
      | some cb =>
        let st2 := st1.emit (.callback cb payload)
        if cbRaises then (.raised, st2) else (.normal, st2)
  match tried with
  | (.normal, st1) => (.normal, st1)
  | (.raised, st1) => (.normal, st1.emit (.console .error "❌ Invalid WS message format:"))

/-- The `onConnect` closure of client `c` (lines 17-42). -/
def onConnect (c : Nat) (podId : PodId) (onMessage : Option Nat) (u sb : Outcome)
    (st : Hook α) : Completion × Hook α :=
  let st0 := st.emit (.console .log ("✅ WebSocket connected for pod " ++ podId.template))
  let unsubbed : Completion × Hook α :=
    match st0.subscriptionRef with
    | none => (.normal, st0)
    | some s =>
      match unsubscribe s u st0 with
      | (.raised, st1) => (.raised, st1)
      | (.normal, st1) =>
        (.normal, st1.emit
          (.console .log ("🔄 Unsubscribed from previous topic for pod " ++ podId.template)))
  match unsubbed with
  | (.raised, st1) => (.raised, st1)
  | (.normal, st1) =>
    match subscribe c podId onMessage sb st1 with
    | (none, st2) => (.raised, st2)
    | (some h, st2) =>
      (.normal, ({ st2 with subscriptionRef := some h }).emit
        (.console .log ("📡 Subscribed to " ++ topic podId)))

/-- The `onDisconnect` closure (lines 46-52). -/
def onDisconnect (podId : PodId) (u : Outcome) (st : Hook α) : Completion × Hook α :=
  let st0 := st.emit (.console .log ("🔴 WebSocket disconnected for pod " ++ podId.template))
  match st0.subscriptionRef with
  | none => (.normal, st0)
  | some s =>
    match unsubscribe s u st0 with
    | (.raised, st1) => (.raised, st1)
    | (.normal, st1) => (.normal, { st1 with subscriptionRef := none })

/-- The `onStompError` closure (lines 43-45). -/
def onStompError (st : Hook α) : Hook α :=
  st.emit (.console .error "❌ STOMP error:")

/-- The `try` block of the cleanup closure (lines 61-67). -/
def cleanupTry (u : Outcome) (st : Hook α) : Completion × Hook α :=
  let unsubbed : Completion × Hook α :=
    match st.subscriptionRef with
    | none => (.normal, st)
    | some s =>
      match unsubscribe s u st with
      | (.raised, st1) => (.raised, st1)
      | (.normal, st1) => (.normal, { st1 with subscriptionRef := none })
  match unsubbed with
  | (.raised, st1) => (.raised, st1)
  | (.normal, st1) =>
    match st1.clientRef with
    | none => (.normal, st1)
    | some c => (.normal, deactivate c st1)

/-- The cleanup closure returned by the effect (lines 58-71). -/
def cleanup (podId : PodId) (u : Outcome) (st : Hook α) : Hook α :=
  let st0 := st.emit (.console .log ("🧹 Cleaning up WebSocket for pod " ++ podId.template))
  match cleanupTry u st0 with
  | (.normal, st1) => st1
  | (.raised, st1) => st1.emit (.console .error "Error during cleanup:")

/-- The effect body (lines 9-57). With a falsy `podId` it returns at once, and returns no
cleanup; otherwise it builds a client, activates it and stores it in `clientRef`. -/
def effect (podId : PodId) (onMessage : Option Nat) (st : Hook α) : Hook α :=
  if !podId.truthy then st
  else
    let (c, st1) := construct podId onMessage st
    let st2 := activate c st1
    { st2 with clientRef := some c }

/-- React re-running the effect after a change of `[podId, onMessage]`: the cleanup of the
previous run, when that run returned one, and then the effect body with the new values. -/
def rerender (prev : PodId) (u : Outcome) (podId : PodId) (onMessage : Option Nat)
    (st : Hook α) : Hook α :=
  effect podId onMessage (if prev.truthy then cleanup prev u st else st)

/-- The function `send` (lines 74-85), called in a render whose prop is `podId`. -/
def send (rt : Runtime α) (podId : PodId) (payload : α) (st : Hook α) :
    Res JsValue × Hook α :=
  match st.clientRef with
  | none => (.ret .undefined, st.emit (.console .warn "⚠️ WebSocket not connected, cannot send message"))
  | some c =>
    if !connectedOf st c then
      (.ret .undefined, st.emit (.console .warn "⚠️ WebSocket not connected, cannot send message"))
    else
      let st1 := st.emit (.console .log ("📤 Sending message to " ++ destination podId ++ ":"))
      match rt.stringify payload with
      | .threw => (.threw, st1)
      | .ret body => (.ret .undefined, st1.emit (.publish c (destination podId) body))

/-- The broker delivers a frame with the given body to subscription `s`. -/
def deliver (rt : Runtime α) (s : Nat) (body : String) (cbRaises : Bool) (st : Hook α) :
    Completion × Hook α :=
  if s ∈ st.live then
    match st.subs[s]? with
    | some sub => handler rt sub.podId sub.onMessage body cbRaises st
    | none => (.normal, st)
  else (.normal, st)

/-! ## The hook as a state machine -/

/-- What can happen to a hook instance. -/
inductive Event (α : Type) where
  | effect (podId : PodId) (onMessage : Option Nat)
  | cleanup (c : Nat) (u : Outcome)
  | connect (c : Nat) (u sb : Outcome)
  | disconnect (c : Nat) (u : Outcome)
  | drop (c : Nat)
  | stompError
  | frame (s : Nat) (body : String) (cbRaises : Bool)
  | send (podId : PodId) (payload : α)

/-- One event. `cleanup c` is the cleanup closure of the effect run that built client `c`;
`connect c` and `disconnect c` are the transport calling the closures of client `c`;
`drop c` is the connection of `c` closing without `onDisconnect` being called;
`stompError` is the broker reporting an error frame. -/
def step (rt : Runtime α) (st : Hook α) : Event α → Hook α
  | .effect podId onMessage => effect podId onMessage st
  | .cleanup c u =>
    match st.clients[c]? with
    | some cl => cleanup cl.podId u st
    | none => st
  | .connect c u sb =>
    match st.clients[c]? with
    | some cl => (onConnect c cl.podId cl.onMessage u sb (setConnected c true st)).2
    | none => st
  | .disconnect c u =>
    match st.clients[c]? with
    | some cl => (onDisconnect cl.podId u (setConnected c false st)).2
    | none => st
  | .drop c => setConnected c false st
  | .stompError => onStompError st
  | .frame s body cbRaises => (deliver rt s body cbRaises st).2
  | .send podId payload => (send rt podId payload st).2

/-- Run a sequence of events from a state. -/
def run (rt : Runtime α) (evs : List (Event α)) (st : Hook α) : Hook α :=
  evs.foldl (step rt) st

/-- Events that leave the hook mounted: all but an effect run and a cleanup. -/
def Event.keepsMounted : Event α → Bool
  | .effect _ _ => false
  | .cleanup _ _ => false
  | _ => true

/-- What the closures of a client captured when the effect built it. -/
def Client.captured (cl : Client) : PodId × Option Nat :=
  (cl.podId, cl.onMessage)

/-- Every live subscription is the one held in `subscriptionRef`. -/
def Inv (st : Hook α) : Prop :=
  st.live = [] ∨ ∃ s, st.live = [s] ∧ st.subscriptionRef = some s

/-! ## A concrete JSON runtime -/

/-- JSON values with integer numbers. -/
inductive Json where
  | null
  | bool (b : Bool)
  | num (n : Int)
  | str (s : String)
  | arr (xs : List Json)
  | obj (kvs : List (String × Json))

/-- Drop leading JSON whitespace (space, tab, line feed, carriage return) from code points. -/
def skipWs : List Nat → List Nat
  | [] => []
  | c :: cs => if c = 32 ∨ c = 9 ∨ c = 10 ∨ c = 13 then skipWs cs else c :: cs

/-- The character a one-letter escape stands for. -/
def unescape (c : Nat) : Option Nat :=
  if c = 34 then some 34 else if c = 92 then some 92 else if c = 47 then some 47
  else if c = 98 then some 8 else if c = 102 then some 12 else if c = 110 then some 10
  else if c = 114 then some 13 else if c = 116 then some 9 else none

/-- Read a string body up to its closing quote; `acc` holds the characters read, reversed. -/
def parseString (acc : List Nat) : List Nat → Option (String × List Nat)
  | [] => none
  | c :: cs =>
    if c = 34 then some (String.mk (acc.reverse.map Char.ofNat), cs)
    else if c = 92 then
      match cs with
      | [] => none
      | e :: rest =>
        match unescape e with
        | some ch => parseString (ch :: acc) rest
        | none => none
    else if c < 32 then none
    else parseString (c :: acc) cs

/-- Read a run of decimal digits. -/
def parseDigits (acc : Nat) : List Nat → Nat × List Nat
  | [] => (acc, [])
  | c :: cs => if 48 ≤ c ∧ c ≤ 57 then parseDigits (acc * 10 + (c - 48)) cs else (acc, c :: cs)

/-- Read an unsigned integer without a superfluous leading zero. -/
def parseNat : List Nat → Option (Nat × List Nat)
  | [] => none
  | c :: cs =>
    if c = 48 then
      match cs with
      | d :: _ => if 48 ≤ d ∧ d ≤ 57 then none else some (0, cs)
      | [] => some (0, cs)
    else if 49 ≤ c ∧ c ≤ 57 then some (parseDigits (c - 48) cs)
    else none

/-- Consume the given code points. -/
def expect : List Nat → List Nat → Option (List Nat)
  | [], cs => some cs
  | _ :: _, [] => none
  | w :: ws, c :: cs => if w = c then expect ws cs else none

mutual
/-- Read one JSON value. -/
def parseValue : Nat → List Nat → Option (Json × List Nat)
  | 0, _ => none
  | fuel + 1, cs =>
    match skipWs cs with
    | [] => none
    | c :: rest =>
      if c = 110 then (expect [117, 108, 108] rest).map (fun r => (Json.null, r))
      else if c = 116 then (expect [114, 117, 101] rest).map (fun r => (Json.bool true, r))
      else if c = 102 then (expect [97, 108, 115, 101] rest).map (fun r => (Json.bool false, r))
      else if c = 34 then (parseString [] rest).map (fun r => (Json.str r.1, r.2))
      else if c = 45 then (parseNat rest).map (fun r => (Json.num (-(r.1 : Int)), r.2))
      else if c = 91 then
        match skipWs rest with
        | 93 :: r => some (Json.arr [], r)
        | r => parseElems fuel r []
      else if c = 123 then
        match skipWs rest with
        | 125 :: r => some (Json.obj [], r)
        | r => parseFields fuel r []
      else (parseNat (c :: rest)).map (fun r => (Json.num (r.1 : Int), r.2))
/-- Read the elements of a non-empty array, up to and including the closing bracket. -/
def parseElems : Nat → List Nat → List Json → Option (Json × List Nat)
  | 0, _, _ => none
  | fuel + 1, cs, acc =>
    match parseValue fuel cs with
    | none => none
    | some (v, r) =>
      match skipWs r with
      | 44 :: r2 => parseElems fuel r2 (v :: acc)
      | 93 :: r2 => some (Json.arr (v :: acc).reverse, r2)
      | _ => none
/-- Read the members of a non-empty object, up to and including the closing brace. -/
def parseFields : Nat → List Nat → List (String × Json) → Option (Json × List Nat)
  | 0, _, _ => none
  | fuel + 1, cs, acc =>
    match skipWs cs with
    | 34 :: r =>
      match parseString [] r with
      | none => none
      | some (k, r1) =>
        match skipWs r1 with
        | 58 :: r2 =>
          match parseValue fuel r2 with
          | none => none
          | some (v, r3) =>
            match skipWs r3 with
            | 44 :: r4 => parseFields fuel r4 ((k, v) :: acc)
            | 125 :: r4 => some (Json.obj ((k, v) :: acc).reverse, r4)
            | _ => none
        | _ => none
    | _ => none
end

/-- A parser for the JSON texts with integer numbers and one-letter escapes. It is not
`JSON.parse`: it rejects fractions, exponents and four-digit unicode escapes, keeps big
integers exact and keeps object members in source order. It only instantiates `Runtime` at
concrete frames on which the two agree; the theorems about the hook hold for every `Runtime`. -/
def jsonParse (body : String) : Option Json :=
  let cs := body.toList.map Char.toNat
  match parseValue (cs.length + 1) cs with
  | some (v, r) => if skipWs r = [] then some v else none
  | none => none


/-- Write a string literal body, escaping what JSON requires. -/
def quoteChars : List Nat → List Nat
  | [] => []
  | c :: cs =>
    (if c = 34 then [92, 34] else if c = 92 then [92, 92] else if c = 8 then [92, 98]
     else if c = 12 then [92, 102] else if c = 10 then [92, 110] else if c = 13 then [92, 114]
     else if c = 9 then [92, 116] else [c]) ++ quoteChars cs

/-- A quoted JSON string. -/
def quoteString (s : String) : List Nat :=
  [34] ++ quoteChars (s.toList.map Char.toNat) ++ [34]

/-- The decimal digits of an integer. -/
def intChars (n : Int) : List Nat :=
  (toString n).toList.map Char.toNat

mutual
/-- Write a JSON value without whitespace. -/
def render : Json → List Nat
  | .null => [110, 117, 108, 108]
  | .bool true => [116, 114, 117, 101]
  | .bool false => [102, 97, 108, 115, 101]
  | .num n => intChars n
  | .str s => quoteString s
  | .arr xs => [91] ++ renderElems xs ++ [93]
  | .obj kvs => [123] ++ renderFields kvs ++ [125]
/-- Write array elements, separated by commas. -/
def renderElems : List Json → List Nat
  | [] => []
  | [x] => render x
  | x :: y :: xs => render x ++ [44] ++ renderElems (y :: xs)
/-- Write object members, separated by commas. -/
def renderFields : List (String × Json) → List Nat
  | [] => []
  | [(k, v)] => quoteString k ++ [58] ++ render v
  | (k, v) :: kv :: kvs => quoteString k ++ [58] ++ render v ++ [44] ++ renderFields (kv :: kvs)
end

/-- Serialise a JSON value. -/
def jsonStringify (j : Json) : String :=
  String.mk ((render j).map Char.ofNat)


/-- The JSON builtins over `Json`. -/
def jsonRuntime : Runtime Json :=
  { parse := jsonParse, stringify := fun j => .ret (some (jsonStringify j)) }

/-- Is the connection usable for `send`: a client is held in `clientRef` and it is connected. -/
def isConnected (st : Hook α) : Bool :=
  match st.clientRef with
  | some c => connectedOf st c
  | none => false

/-- Every handle held in `subscriptionRef` was returned by an earlier `subscribe`. -/
def Valid (st : Hook α) : Prop :=
  ∀ h, st.subscriptionRef = some h → h < st.subs.length

/-! ## Sample runs -/

/-- The pod of the sample runs. -/
def roomOne : PodId := .str "room-1"

/-- A second pod. -/
def roomTwo : PodId := .str "room-2"

/-- The hook mounted for `room-1`, connected and subscribed. -/
def subscribedRoomOne : Hook Json :=
  run jsonRuntime [.effect roomOne (some 0), .connect 0 .ok .ok] init

/-- The hook mounted for `room-1`, its client built and activated but not yet connected. -/
def connectingRoomOne : Hook Json :=
  run jsonRuntime [.effect roomOne (some 0)] init

/-- Pod change from `room-1` to `room-2` where the old client reports its disconnect after
the new client has connected. -/
def switchThenLateDisconnect : List (Event Json) :=
  [.effect roomOne (some 0), .connect 0 .ok .ok,
   .cleanup 0 .ok, .effect roomTwo (some 0),
   .connect 1 .ok .ok, .disconnect 0 .ok]

/-- The same pod change where the old client reports its disconnect before the new client
connects. -/
def switchThenEarlyDisconnect : List (Event Json) :=
  [.effect roomOne (some 0), .connect 0 .ok .ok,
   .cleanup 0 .ok, .effect roomTwo (some 0),
   .disconnect 0 .ok, .connect 1 .ok .ok]

/-! ## Basic facts about the trace and the invariant -/

theorem length_updateAt {β : Type} (f : β → β) (i : Nat) (l : List β) :
    (updateAt f i l).length = l.length := by
  induction l generalizing i with
  | nil => cases i <;> rfl
  | cons x xs ih => cases i <;> simp [updateAt, ih]

theorem getElem?_updateAt {β : Type} (f : β → β) (i j : Nat) (l : List β) :
    (updateAt f i l)[j]? = if i = j then l[j]?.map f else l[j]? := by
  induction l generalizing i j with
  | nil => cases i <;> simp [updateAt]
  | cons x xs ih =>
    cases i with
    | zero => cases j <;> simp [updateAt]
    | succ i => cases j <;> simp [updateAt, ih]

theorem updateAt_idem {β : Type} (f : β → β) (hf : ∀ x, f (f x) = f x) (i : Nat)
    (l : List β) : updateAt f i (updateAt f i l) = updateAt f i l := by
  induction l generalizing i with
  | nil => cases i <;> rfl
  | cons x xs ih => cases i <;> simp [updateAt, ih, hf]

theorem calls_append (a b : List (Action α)) : calls (a ++ b) = calls a ++ calls b := by
  simp [calls]

theorem callbacks_append (a b : List (Action α)) :
    callbacks (a ++ b) = callbacks a ++ callbacks b := by
  induction a with
  | nil => rfl
  | cons x xs ih => cases x <;> simp [callbacks, ih]

theorem publishes_append (a b : List (Action α)) :
    publishes (a ++ b) = publishes a ++ publishes b := by
  induction a with
  | nil => rfl
  | cons x xs ih => cases x <;> simp [callbacks, publishes, ih]

theorem inv_init : Inv (init : Hook α) := Or.inl rfl

theorem inv_length {st : Hook α} (h : Inv st) : st.live.length ≤ 1 := by
  rcases h with h | ⟨s, h, _⟩ <;> simp [h]

theorem inv_onConnect (c : Nat) (podId : PodId) (onMessage : Option Nat) (u sb : Outcome)
    {st : Hook α} (h : Inv st) : Inv (onConnect c podId onMessage u sb st).2 := by
  rcases h with h | ⟨s, h, hs⟩
  · cases hr : st.subscriptionRef <;> cases u <;> cases sb <;>
      simp [Inv, onConnect, unsubscribe, subscribe, Hook.emit, h, hr]
  · cases u <;> cases sb <;>
      simp [Inv, onConnect, unsubscribe, subscribe, Hook.emit, h, hs]

theorem inv_onDisconnect (podId : PodId) (u : Outcome) {st : Hook α} (h : Inv st) :
    Inv (onDisconnect podId u st).2 := by
  rcases h with h | ⟨s, h, hs⟩
  · cases hr : st.subscriptionRef <;> cases u <;>
      simp [Inv, onDisconnect, unsubscribe, Hook.emit, h, hr]
  · cases u <;> simp [Inv, onDisconnect, unsubscribe, Hook.emit, h, hs]

theorem inv_cleanup (podId : PodId) (u : Outcome) {st : Hook α} (h : Inv st) :
    Inv (cleanup podId u st) := by
  rcases h with h | ⟨s, h, hs⟩
  · cases hr : st.subscriptionRef <;> cases hc : st.clientRef <;> cases u <;>
      simp [Inv, cleanup, cleanupTry, unsubscribe, deactivate, Hook.emit, h, hr, hc]
  · cases hc : st.clientRef <;> cases u <;>
      simp [Inv, cleanup, cleanupTry, unsubscribe, deactivate, Hook.emit, h, hs, hc]

theorem inv_effect (podId : PodId) (onMessage : Option Nat) {st : Hook α} (h : Inv st) :
    Inv (effect podId onMessage st) := by
  unfold effect
  split
  · exact h
  · simpa [Inv, construct, activate, Hook.emit] using h

theorem inv_setConnected (c : Nat) (b : Bool) {st : Hook α} (h : Inv st) :
    Inv (setConnected c b st) := h

theorem handler_frame (rt : Runtime α) (podId : PodId) (onMessage : Option Nat)
    (body : String) (cbRaises : Bool) (st : Hook α) :
    let st1 := (handler rt podId onMessage body cbRaises st).2
    st1.clientRef = st.clientRef ∧ st1.subscriptionRef = st.subscriptionRef ∧
      st1.clients = st.clients ∧ st1.subs = st.subs ∧ st1.live = st.live := by
  cases hp : rt.parse body <;> cases onMessage <;> cases cbRaises <;>
    simp [handler, Hook.emit, hp]

theorem deliver_frame (rt : Runtime α) (s : Nat) (body : String) (cbRaises : Bool)
    (st : Hook α) :
    let st1 := (deliver rt s body cbRaises st).2
    st1.clientRef = st.clientRef ∧ st1.subscriptionRef = st.subscriptionRef ∧
      st1.clients = st.clients ∧ st1.subs = st.subs ∧ st1.live = st.live := by
  unfold deliver
  split
  · split
    · exact handler_frame rt _ _ body cbRaises st
    · simp
  · simp

theorem send_frame (rt : Runtime α) (podId : PodId) (payload : α) (st : Hook α) :
    let st1 := (send rt podId payload st).2
    st1.clientRef = st.clientRef ∧ st1.subscriptionRef = st.subscriptionRef ∧
      st1.clients = st.clients ∧ st1.subs = st.subs ∧ st1.live = st.live := by
  cases hr : st.clientRef with
  | none => simp [send, Hook.emit, hr]
  | some c =>
    by_cases hc : connectedOf st c <;> cases hs : rt.stringify payload <;>
      simp [send, Hook.emit, hr, hc, hs]

theorem inv_step (rt : Runtime α) (e : Event α) {st : Hook α} (h : Inv st) :
    Inv (step rt st e) := by
  cases e with
  | effect podId onMessage => exact inv_effect podId onMessage h
  | cleanup c u =>
    simp only [step]
    split
    · exact inv_cleanup _ u h
    · exact h
  | connect c u sb =>
    simp only [step]
    split
    · exact inv_onConnect c _ _ u sb (inv_setConnected c true h)
    · exact h
  | disconnect c u =>
    simp only [step]
    split
    · exact inv_onDisconnect _ u (inv_setConnected c false h)
    · exact h
  | drop c => exact inv_setConnected c false h
  | stompError => exact h
  | frame s body cbRaises =>
    have hf := deliver_frame rt s body cbRaises st
    simp only [step]
    simpa [Inv, hf.2.1, hf.2.2.2.2] using h
  | send podId payload =>
    have hf := send_frame rt podId payload st
    simp only [step]
    simpa [Inv, hf.2.1, hf.2.2.2.2] using h

theorem inv_run (rt : Runtime α) (evs : List (Event α)) {st : Hook α} (h : Inv st) :
    Inv (run rt evs st) := by
  induction evs generalizing st with
  | nil => exact h
  | cons e es ih => exact ih (inv_step rt e h)

theorem valid_init : Valid (init : Hook α) := by
  intro h hh
  simp [init] at hh

theorem valid_onConnect (c : Nat) (podId : PodId) (onMessage : Option Nat) (u sb : Outcome)
    {st : Hook α} (h : Valid st) : Valid (onConnect c podId onMessage u sb st).2 := by
  intro k
  have hk := h k
  cases hr : st.subscriptionRef <;> cases u <;> cases sb <;>
    simp [onConnect, unsubscribe, subscribe, Hook.emit, hr] at hk ⊢ <;>
    omega

theorem valid_onDisconnect (podId : PodId) (u : Outcome) {st : Hook α} (h : Valid st) :
    Valid (onDisconnect podId u st).2 := by
  intro k
  have hk := h k
  cases hr : st.subscriptionRef <;> cases u <;>
    simp [onDisconnect, unsubscribe, Hook.emit, hr] at hk ⊢
  exact hk

theorem valid_cleanup (podId : PodId) (u : Outcome) {st : Hook α} (h : Valid st) :
    Valid (cleanup podId u st) := by
  intro k
  have hk := h k
  cases hr : st.subscriptionRef <;> cases hc : st.clientRef <;> cases u <;>
    simp [cleanup, cleanupTry, unsubscribe, deactivate, Hook.emit, hr, hc] at hk ⊢ <;>
    omega

theorem valid_effect (podId : PodId) (onMessage : Option Nat) {st : Hook α} (h : Valid st) :
    Valid (effect podId onMessage st) := by
  unfold effect
  split
  · exact h
  · simpa [Valid, construct, activate, Hook.emit] using h

theorem valid_step (rt : Runtime α) (e : Event α) {st : Hook α} (h : Valid st) :
    Valid (step rt st e) := by
  cases e with
  | effect podId onMessage => exact valid_effect podId onMessage h
  | cleanup c u =>
    simp only [step]
    split
    · exact valid_cleanup _ u h
    · exact h
  | connect c u sb =>
    simp only [step]
    split
    · exact valid_onConnect c _ _ u sb (show Valid (setConnected c true st) from h)
    · exact h
  | disconnect c u =>
    simp only [step]
    split
    · exact valid_onDisconnect _ u (show Valid (setConnected c false st) from h)
    · exact h
  | drop c => exact h
  | stompError => exact h
  | frame s body cbRaises =>
    have hf := deliver_frame rt s body cbRaises st
    simp only [step]
    simpa [Valid, hf.2.1, hf.2.2.2.1] using h
  | send podId payload =>
    have hf := send_frame rt podId payload st
    simp only [step]
    simpa [Valid, hf.2.1, hf.2.2.2.1] using h

theorem valid_run (rt : Runtime α) (evs : List (Event α)) {st : Hook α} (h : Valid st) :
    Valid (run rt evs st) := by
  induction evs generalizing st with
  | nil => exact h
  | cons e es ih => exact ih (valid_step rt e h)

/-- When the unsubscribe call returns, the cleanup leaves no live subscription, clears
`subscriptionRef` and calls `deactivate` on the client held in `clientRef`. -/
theorem cleanup_ok_tears_down (podId : PodId) {st : Hook α} (h : Inv st) :
    (cleanup podId .ok st).live = [] ∧ (cleanup podId .ok st).subscriptionRef = none ∧
    ∀ c, st.clientRef = some c →
      calls (cleanup podId .ok st).trace =
        calls st.trace ++ (st.subscriptionRef.toList.map Action.unsubscribe) ++ [.deactivate c] := by
  rcases h with h | ⟨s, h, hs⟩
  · cases hr : st.subscriptionRef <;> cases hc : st.clientRef <;>
      simp [cleanup, cleanupTry, unsubscribe, deactivate, Hook.emit, h, hr, hc, calls_append,
        calls, Action.isTransport]
  · cases hc : st.clientRef <;>
      simp [cleanup, cleanupTry, unsubscribe, deactivate, Hook.emit, h, hs, hc, calls_append,
        calls, Action.isTransport]


/-! ## Claims -/

/-- C1: in every state reached from the initial hook by any sequence of events (effect runs,
`onConnect`, `onDisconnect`, cleanups, connection drops, inbound frames, sends, with transport
calls that return or raise), at most one subscription is live; and `onConnect` called in such
a state unsubscribes the handle held in `subscriptionRef` before it calls `client.subscribe`,
which it does not reach when that unsubscribe raises. -/
theorem live_subscriptions_at_most_one (rt : Runtime α) (evs : List (Event α)) :
    (run rt evs init).live.length ≤ 1 ∧
    ∀ (c : Nat) (podId : PodId) (onMessage : Option Nat) (u sb : Outcome),
      calls (onConnect c podId onMessage u sb (run rt evs init)).2.trace =
        calls (run rt evs init).trace ++
          (match (run rt evs init).subscriptionRef, u with
           | some h, .ok => [.unsubscribe h, .subscribe c (topic podId)]
           | some h, .raise => [.unsubscribe h]
           | none, _ => [.subscribe c (topic podId)]) := by
  refine ⟨inv_length (inv_run rt evs inv_init), ?_⟩
  intro c podId onMessage u sb
  generalize run rt evs init = st
  cases hr : st.subscriptionRef <;> cases u <;> cases sb <;>
    simp [onConnect, unsubscribe, subscribe, Hook.emit, hr, calls_append, calls,
      Action.isTransport]

/-- C2: evaluation at the failing sequence. After the pod change from `room-1` to `room-2`,
when the old client reports its disconnect after the new client has connected, the old
`onDisconnect` unsubscribes the new handle through the shared `subscriptionRef`: no
subscription is live. With the disconnect reported first, one subscription to the topic of
`room-2` is live. -/
theorem late_onDisconnect_leaves_no_subscription :
    (run jsonRuntime switchThenLateDisconnect init).live = [] ∧
    (run jsonRuntime switchThenLateDisconnect init).subscriptionRef = none ∧
    calls (run jsonRuntime switchThenLateDisconnect init).trace =
      [.construct 0, .activate 0, .subscribe 0 "/topic/pod.room-1.chat",
       .unsubscribe 0, .deactivate 0,
       .construct 1, .activate 1, .subscribe 1 "/topic/pod.room-2.chat",
       .unsubscribe 1] ∧
    (run jsonRuntime switchThenEarlyDisconnect init).live = [1] ∧
    (run jsonRuntime switchThenEarlyDisconnect init).subs[1]? =
      some { client := 1, dest := "/topic/pod.room-2.chat", podId := roomTwo,
             onMessage := some 0 } := by
  refine ⟨by rfl, by rfl, by rfl, by rfl, by rfl⟩

/-- C3: evaluation at the failing input. When the hook is connected and subscribed and the
unsubscribe call of the cleanup raises, the cleanup leaves the handle in `subscriptionRef`
and live, never calls `deactivate`, and the client stays active. -/
theorem cleanup_skips_deactivate_when_unsubscribe_raises :
    (cleanup roomOne .raise subscribedRoomOne).subscriptionRef = some 0 ∧
    (cleanup roomOne .raise subscribedRoomOne).live = [0] ∧
    (cleanup roomOne .raise subscribedRoomOne).trace =
      subscribedRoomOne.trace ++
        [.console .log "🧹 Cleaning up WebSocket for pod room-1", .unsubscribe 0,
         .console .error "Error during cleanup:"] ∧
    calls (cleanup roomOne .raise subscribedRoomOne).trace =
      [.construct 0, .activate 0, .subscribe 0 "/topic/pod.room-1.chat", .unsubscribe 0] ∧
    (cleanup roomOne .raise subscribedRoomOne).clients =
      [{ podId := roomOne, onMessage := some 0, active := true, connected := true }] := by
  refine ⟨by rfl, by rfl, by rfl, by rfl, by rfl⟩

/-- C4: for every payload, when `clientRef` holds no client or its client is not connected,
`send` makes no transport call and does not raise; a `publish` call is made only when the
client exists and is connected, and then, `JSON.stringify` returning `body`, it is the one
transport call of `send`, on that client, with the destination of `podId` and that body. -/
theorem send_publishes_only_when_connected (rt : Runtime α) (podId : PodId) (payload : α)
    (st : Hook α) :
    (isConnected st = false →
      (send rt podId payload st).1 ≠ .threw ∧
      calls (send rt podId payload st).2.trace = calls st.trace) ∧
    (publishes (send rt podId payload st).2.trace ≠ publishes st.trace →
      isConnected st = true) ∧
    (isConnected st = true → ∀ body, rt.stringify payload = .ret body →
      ∃ c, st.clientRef = some c ∧
        calls (send rt podId payload st).2.trace =
          calls st.trace ++ [.publish c (destination podId) body] ∧
        publishes (send rt podId payload st).2.trace =
          publishes st.trace ++ [(c, destination podId, body)]) := by
  cases hr : st.clientRef with
  | none =>
    simp [isConnected, send, Hook.emit, hr, calls_append, publishes_append, calls, publishes,
      Action.isTransport]
  | some c =>
    by_cases hc : connectedOf st c
    · cases hs : rt.stringify payload <;>
        simp [isConnected, send, Hook.emit, hr, hc, hs, calls_append, publishes_append, calls,
          publishes, Action.isTransport]
    · simp [isConnected, send, Hook.emit, hr, hc, calls_append, publishes_append, calls,
        publishes, Action.isTransport]

/-- Witness of C4: sending the payload with text "x" for `room-1` before the client has
connected makes no transport call; once connected it publishes once to the destination of
`room-1`. -/
theorem send_publishes_only_when_connected_witness :
    isConnected connectingRoomOne = false ∧
    calls (send jsonRuntime roomOne (.obj [("text", .str "x")]) connectingRoomOne).2.trace =
      calls connectingRoomOne.trace ∧
    isConnected subscribedRoomOne = true ∧
    ∃ c, subscribedRoomOne.clientRef = some c ∧
      calls (send jsonRuntime roomOne (.obj [("text", .str "x")]) subscribedRoomOne).2.trace =
        calls subscribedRoomOne.trace ++
          [.publish c (destination roomOne) (some "\x7b\"text\":\"x\"\x7d")] ∧
      publishes (send jsonRuntime roomOne (.obj [("text", .str "x")]) subscribedRoomOne).2.trace =
        publishes subscribedRoomOne.trace ++
          [(c, destination roomOne, some "\x7b\"text\":\"x\"\x7d")] :=
  ⟨rfl,
   ((send_publishes_only_when_connected jsonRuntime roomOne (.obj [("text", .str "x")])
      connectingRoomOne).1 rfl).2,
   rfl,
   (send_publishes_only_when_connected jsonRuntime roomOne (.obj [("text", .str "x")])
      subscribedRoomOne).2.2 rfl _ rfl⟩

/-- C5 fails: sent for `room-1` before the client has connected, `send` returns `undefined`,
not `false`, and it returns the same value once connected, where it publishes. -/
theorem send_result_does_not_signal :
    isConnected connectingRoomOne = false ∧
    (send jsonRuntime roomOne (.obj [("text", .str "x")]) connectingRoomOne).1 ≠
      .ret (.boolean false) ∧
    publishes (send jsonRuntime roomOne (.obj [("text", .str "x")]) subscribedRoomOne).2.trace =
      [(0, "/app/pod.room-1.chat", some "\x7b\"text\":\"x\"\x7d")] ∧
    (send jsonRuntime roomOne (.obj [("text", .str "x")]) connectingRoomOne).1 =
      (send jsonRuntime roomOne (.obj [("text", .str "x")]) subscribedRoomOne).1 := by
  refine ⟨by rfl, by decide, by rfl, by rfl⟩

/-- C5 as amended: for every payload `send` returns `undefined`, both when the connection is
not connected (nothing is published, nothing is raised) and when the message was published;
the returned value is the same in the two cases. -/
theorem send_returns_undefined (rt : Runtime α) (podId : PodId) (payload : α) (st : Hook α)
    (h : isConnected st = false ∨ ∃ body, rt.stringify payload = .ret body) :
    (send rt podId payload st).1 = .ret .undefined := by
  cases hr : st.clientRef with
  | none => simp [send, hr]
  | some c =>
    by_cases hc : connectedOf st c
    · rcases h with h | ⟨body, hb⟩
      · simp [isConnected, hr, hc] at h
      · simp [send, hr, hc, hb]
    · simp [send, hr, hc]

/-- Witness of C5 as amended, not connected and connected. -/
theorem send_returns_undefined_witness :
    (send jsonRuntime roomOne (.obj [("text", .str "x")]) connectingRoomOne).1 =
      .ret .undefined ∧
    (send jsonRuntime roomOne (.obj [("text", .str "x")]) subscribedRoomOne).1 =
      .ret .undefined :=
  ⟨send_returns_undefined jsonRuntime roomOne _ connectingRoomOne (Or.inl rfl),
   send_returns_undefined jsonRuntime roomOne _ subscribedRoomOne (Or.inr ⟨_, rfl⟩)⟩

/-- C6: for every frame whose body `JSON.parse` accepts and every supplied consumer callback,
the subscription handler returns normally, makes no transport call and invokes that callback
exactly once, with exactly the parsed payload (whether or not the callback itself raises). -/
theorem handler_invokes_callback_once (rt : Runtime α) (podId : PodId) (cb : Nat)
    (body : String) (payload : α) (cbRaises : Bool) (st : Hook α)
    (h : rt.parse body = some payload) :
    (handler rt podId (some cb) body cbRaises st).1 = .normal ∧
    callbacks (handler rt podId (some cb) body cbRaises st).2.trace =
      callbacks st.trace ++ [(cb, payload)] ∧
    calls (handler rt podId (some cb) body cbRaises st).2.trace = calls st.trace := by
  cases cbRaises <;>
    simp [handler, Hook.emit, h, callbacks_append, calls_append, callbacks, calls,
      Action.isTransport]

/-- Witness of C6: the body with type "chat" and text "hi" parses to the object with exactly
these two fields, and the handler hands that object to the callback once. -/
theorem handler_invokes_callback_once_witness :
    jsonRuntime.parse "\x7b\"type\":\"chat\",\"text\":\"hi\"\x7d" =
      some (.obj [("type", .str "chat"), ("text", .str "hi")]) ∧
    callbacks (handler jsonRuntime roomOne (some 0)
        "\x7b\"type\":\"chat\",\"text\":\"hi\"\x7d" false subscribedRoomOne).2.trace =
      callbacks subscribedRoomOne.trace ++
        [(0, .obj [("type", .str "chat"), ("text", .str "hi")])] :=
  ⟨rfl, (handler_invokes_callback_once jsonRuntime roomOne 0
      "\x7b\"type\":\"chat\",\"text\":\"hi\"\x7d" _ false subscribedRoomOne rfl).2.1⟩

/-- C7: for every frame whose body `JSON.parse` rejects, delivered to a live subscription,
the handler returns normally, logs one error, invokes no callback and makes no transport call,
and leaves `clientRef`, `subscriptionRef`, the clients, the subscriptions and the live
subscriptions unchanged; a well-formed frame delivered afterwards to the same subscription
reaches its callback once, with the parsed payload. -/
theorem malformed_frame_is_dropped (rt : Runtime α) (s : Nat) (sub : Sub) (body : String)
    (cbRaises : Bool) (st : Hook α)
    (hbody : rt.parse body = none) (hlive : s ∈ st.live) (hsub : st.subs[s]? = some sub) :
    (deliver rt s body cbRaises st).1 = .normal ∧
    (deliver rt s body cbRaises st).2.trace =
      st.trace ++ [.console .error "❌ Invalid WS message format:"] ∧
    callbacks (deliver rt s body cbRaises st).2.trace = callbacks st.trace ∧
    calls (deliver rt s body cbRaises st).2.trace = calls st.trace ∧
    (deliver rt s body cbRaises st).2.clientRef = st.clientRef ∧
    (deliver rt s body cbRaises st).2.subscriptionRef = st.subscriptionRef ∧
    (deliver rt s body cbRaises st).2.clients = st.clients ∧
    (deliver rt s body cbRaises st).2.subs = st.subs ∧
    (deliver rt s body cbRaises st).2.live = st.live ∧
    ∀ (cb : Nat) (next : String) (payload : α) (r : Bool),
      sub.onMessage = some cb → rt.parse next = some payload →
      callbacks (deliver rt s next r (deliver rt s body cbRaises st).2).2.trace =
        callbacks st.trace ++ [(cb, payload)] := by
  have hd : deliver rt s body cbRaises st =
      (.normal, st.emit (.console .error "❌ Invalid WS message format:")) := by
    simp [deliver, handler, hlive, hsub, hbody]
  rw [hd]
  refine ⟨rfl, rfl, ?_, ?_, rfl, rfl, rfl, rfl, rfl, ?_⟩
  · simp [Hook.emit, callbacks_append, callbacks]
  · simp [Hook.emit, calls_append, calls, Action.isTransport]
  · intro cb next payload r hcb hnext
    cases r <;>
      simp [deliver, handler, Hook.emit, hlive, hsub, hcb, hnext, callbacks_append, callbacks]

/-- Witness of C7: the truncated body is rejected and dropped by the live subscription of
`room-1`, and the well-formed frame that follows reaches the callback. -/
theorem malformed_frame_is_dropped_witness :
    jsonRuntime.parse "\x7b\"type\":" = none ∧
    (deliver jsonRuntime 0 "\x7b\"type\":" false subscribedRoomOne).2.subscriptionRef =
      subscribedRoomOne.subscriptionRef ∧
    (deliver jsonRuntime 0 "\x7b\"type\":" false subscribedRoomOne).2.live =
      subscribedRoomOne.live ∧
    callbacks (deliver jsonRuntime 0 "\x7b\"type\":\"chat\",\"text\":\"hi\"\x7d" false
        (deliver jsonRuntime 0 "\x7b\"type\":" false subscribedRoomOne).2).2.trace =
      callbacks subscribedRoomOne.trace ++
        [(0, .obj [("type", .str "chat"), ("text", .str "hi")])] :=
  have h := malformed_frame_is_dropped jsonRuntime 0
    { client := 0, dest := "/topic/pod.room-1.chat", podId := roomOne, onMessage := some 0 }
    "\x7b\"type\":" false subscribedRoomOne rfl (by decide) rfl
  ⟨rfl, h.2.2.2.2.2.1, h.2.2.2.2.2.2.2.2.1,
   h.2.2.2.2.2.2.2.2.2 0 "\x7b\"type\":\"chat\",\"text\":\"hi\"\x7d" _ false rfl rfl⟩

/-- C8 fails: changing the pod from `room-1` to `room-2` while connected and subscribed makes
the transport calls unsubscribe, deactivate on the existing client, construction and
activation of a new client, and no subscribe. -/
theorem pod_change_reconnects :
    calls subscribedRoomOne.trace =
      [.construct 0, .activate 0, .subscribe 0 "/topic/pod.room-1.chat"] ∧
    calls (rerender roomOne .ok roomTwo (some 0) subscribedRoomOne).trace =
      [.construct 0, .activate 0, .subscribe 0 "/topic/pod.room-1.chat",
       .unsubscribe 0, .deactivate 0, .construct 1, .activate 1] ∧
    (rerender roomOne .ok roomTwo (some 0) subscribedRoomOne).clientRef = some 1 := by
  refine ⟨by rfl, by rfl, by rfl⟩

/-- C8 as amended: when the pod changes from one truthy `podId` to another and the unsubscribe
call of the cleanup, if one is made, returns, the change itself unsubscribes the handle held
in `subscriptionRef` (if any), calls `deactivate` on the client held in `clientRef` (if any),
then constructs and activates a new client that captures the new `podId` and `onMessage`,
stores it in `clientRef` and leaves `subscriptionRef` empty, with no subscribe call; the
subscribe to the topic "/topic/pod.$(podId).chat" of the new pod is made by the `onConnect`
of the new client. -/
theorem pod_change_replaces_client (prev podId : PodId) (onMessage : Option Nat)
    (u v sb : Outcome) (st : Hook α) (hprev : prev.truthy = true) (hpod : podId.truthy = true)
    (hu : st.subscriptionRef = none ∨ u = .ok) :
    calls (rerender prev u podId onMessage st).trace =
      calls st.trace ++ st.subscriptionRef.toList.map Action.unsubscribe ++
        st.clientRef.toList.map Action.deactivate ++
        [.construct st.clients.length, .activate st.clients.length] ∧
    (rerender prev u podId onMessage st).clientRef = some st.clients.length ∧
    (rerender prev u podId onMessage st).subscriptionRef = none ∧
    (rerender prev u podId onMessage st).clients[st.clients.length]? =
      some { podId := podId, onMessage := onMessage, active := true, connected := false } ∧
    calls (onConnect st.clients.length podId onMessage v sb
        (rerender prev u podId onMessage st)).2.trace =
      calls (rerender prev u podId onMessage st).trace ++
        [.subscribe st.clients.length ("/topic/pod." ++ podId.template ++ ".chat")] := by
  have hnew : ∀ (f g : Client → Client) (i : Nat) (x : Client),
      (updateAt f st.clients.length (updateAt g i st.clients ++ [x]))[st.clients.length]? =
        some (f x) := by
    intro f g i x
    rw [getElem?_updateAt, if_pos rfl,
      List.getElem?_append_right (by rw [length_updateAt]), length_updateAt]
    simp
  have hnew0 : ∀ (f : Client → Client) (x : Client),
      (updateAt f st.clients.length (st.clients ++ [x]))[st.clients.length]? = some (f x) := by
    intro f x
    rw [getElem?_updateAt, if_pos rfl, List.getElem?_append_right (le_refl _)]
    simp
  rcases hu with hr | rfl
  · cases hc : st.clientRef <;> cases u <;> cases v <;> cases sb <;>
      simp [rerender, effect, construct, activate, cleanup, cleanupTry, unsubscribe, deactivate,
        onConnect, subscribe, topic, Hook.emit, hprev, hpod, hr, hc, calls_append, calls,
        Action.isTransport, length_updateAt, hnew, hnew0]
  · cases hr : st.subscriptionRef <;> cases hc : st.clientRef <;> cases v <;> cases sb <;>
      simp [rerender, effect, construct, activate, cleanup, cleanupTry, unsubscribe, deactivate,
        onConnect, subscribe, topic, Hook.emit, hprev, hpod, hr, hc, calls_append, calls,
        Action.isTransport, length_updateAt, hnew, hnew0]

/-- Witness of C8 as amended: the change from `room-1` to `room-2` on the subscribed hook,
and the new client connecting afterwards. -/
theorem pod_change_replaces_client_witness :
    calls (rerender roomOne .ok roomTwo (some 0) subscribedRoomOne).trace =
      calls subscribedRoomOne.trace ++
        [.unsubscribe 0, .deactivate 0, .construct 1, .activate 1] ∧
    (rerender roomOne .ok roomTwo (some 0) subscribedRoomOne).clientRef = some 1 ∧
    (rerender roomOne .ok roomTwo (some 0) subscribedRoomOne).subscriptionRef = none ∧
    (rerender roomOne .ok roomTwo (some 0) subscribedRoomOne).clients[1]? =
      some { podId := .str "room-2", onMessage := some 0, active := true,
             connected := false } ∧
    calls (onConnect 1 roomTwo (some 0) .ok .ok
        (rerender roomOne .ok roomTwo (some 0) subscribedRoomOne)).2.trace =
      calls (rerender roomOne .ok roomTwo (some 0) subscribedRoomOne).trace ++
        [.subscribe 1 "/topic/pod.room-2.chat"] :=
  pod_change_replaces_client roomOne roomTwo (some 0) .ok .ok .ok subscribedRoomOne rfl rfl
    (Or.inr rfl)

/-- C9 fails: on the subscribed hook the second of two cleanups in a row calls `deactivate`
on the client again. -/
theorem second_cleanup_deactivates_again :
    (cleanup roomOne .ok (cleanup roomOne .ok subscribedRoomOne)).trace =
      (cleanup roomOne .ok subscribedRoomOne).trace ++
        [.console .log "🧹 Cleaning up WebSocket for pod room-1", .deactivate 0] ∧
    calls (cleanup roomOne .ok (cleanup roomOne .ok subscribedRoomOne)).trace =
      [.construct 0, .activate 0, .subscribe 0 "/topic/pod.room-1.chat",
       .unsubscribe 0, .deactivate 0, .deactivate 0] := by
  refine ⟨by rfl, by rfl⟩

/-- C9 as amended: after a cleanup whose unsubscribe call returned, a second cleanup in a row
leaves the refs, the clients, the subscriptions and the live subscriptions as the first left
them, makes no unsubscribe call and logs no error; besides its log line it calls `deactivate`
once more on the client held in `clientRef`, if any. -/
theorem second_cleanup_same_state (podId : PodId) (u : Outcome) (st : Hook α) :
    (cleanup podId u (cleanup podId .ok st)).clientRef = (cleanup podId .ok st).clientRef ∧
    (cleanup podId u (cleanup podId .ok st)).subscriptionRef =
      (cleanup podId .ok st).subscriptionRef ∧
    (cleanup podId u (cleanup podId .ok st)).clients = (cleanup podId .ok st).clients ∧
    (cleanup podId u (cleanup podId .ok st)).subs = (cleanup podId .ok st).subs ∧
    (cleanup podId u (cleanup podId .ok st)).live = (cleanup podId .ok st).live ∧
    (cleanup podId u (cleanup podId .ok st)).trace =
      (cleanup podId .ok st).trace ++
        [.console .log ("🧹 Cleaning up WebSocket for pod " ++ podId.template)] ++
        st.clientRef.toList.map Action.deactivate := by
  cases hr : st.subscriptionRef <;> cases hc : st.clientRef <;> cases u <;>
    simp [cleanup, cleanupTry, unsubscribe, deactivate, Hook.emit, hr, hc, updateAt_idem]

/-- Reconnect from a state in which every live subscription is the one in `subscriptionRef`
and that handle is an existing one. -/
theorem reconnect_from (rt : Runtime α) (st : Hook α) (c : Nat) (cl : Client) (u : Outcome)
    (gap : Event α) (hinv : Inv st) (hvalid : Valid st)
    (hc : st.clients[c]? = some cl) (hgap : gap = .disconnect c u ∨ gap = .drop c) :
    ∃ s delta,
      (run rt [gap, .connect c .ok .ok] st).subscriptionRef = some s ∧
      (run rt [gap, .connect c .ok .ok] st).live = [s] ∧
      (run rt [gap, .connect c .ok .ok] st).subs[s]? =
        some { client := c, dest := topic cl.podId, podId := cl.podId,
               onMessage := cl.onMessage } ∧
      st.subs.length ≤ s ∧
      calls (run rt [gap, .connect c .ok .ok] st).trace =
        calls st.trace ++ delta ++ [.subscribe c (topic cl.podId)] ∧
      (∀ a, a ∈ delta → ∃ h, a = .unsubscribe h ∧ st.subscriptionRef = some h) ∧
      ∀ h, st.subscriptionRef = some h →
        Action.unsubscribe h ∈ delta ∧ h ∉ (run rt [gap, .connect c .ok .ok] st).live := by
  have hv := hvalid
  unfold Valid at hv
  rcases hgap with rfl | rfl
  · rcases hinv with hl | ⟨s, hl, hs⟩
    · cases hr : st.subscriptionRef with
      | none =>
        refine ⟨st.subs.length, [], ?_⟩
        cases u <;>
          simp [run, step, setConnected, getElem?_updateAt, hc, onDisconnect, onConnect,
            unsubscribe, subscribe, Hook.emit, hl, hr, calls_append, calls, Action.isTransport]
      | some h =>
        have hh := hv h hr
        cases u
        · refine ⟨st.subs.length, [.unsubscribe h], ?_⟩
          simp [run, step, setConnected, getElem?_updateAt, hc, onDisconnect, onConnect,
            unsubscribe, subscribe, Hook.emit, hl, hr, calls_append, calls, Action.isTransport]
          omega
        · refine ⟨st.subs.length, [.unsubscribe h, .unsubscribe h], ?_⟩
          simp [run, step, setConnected, getElem?_updateAt, hc, onDisconnect, onConnect,
            unsubscribe, subscribe, Hook.emit, hl, hr, calls_append, calls, Action.isTransport]
          omega
    · have hh := hv s hs
      cases u
      · refine ⟨st.subs.length, [.unsubscribe s], ?_⟩
        simp [run, step, setConnected, getElem?_updateAt, hc, onDisconnect, onConnect,
          unsubscribe, subscribe, Hook.emit, hl, hs, calls_append, calls, Action.isTransport]
        omega
      · refine ⟨st.subs.length, [.unsubscribe s, .unsubscribe s], ?_⟩
        simp [run, step, setConnected, getElem?_updateAt, hc, onDisconnect, onConnect,
          unsubscribe, subscribe, Hook.emit, hl, hs, calls_append, calls, Action.isTransport]
        omega
  · rcases hinv with hl | ⟨s, hl, hs⟩
    · cases hr : st.subscriptionRef with
      | none =>
        refine ⟨st.subs.length, [], ?_⟩
        simp [run, step, setConnected, getElem?_updateAt, hc, onConnect,
          unsubscribe, subscribe, Hook.emit, hl, hr, calls_append, calls, Action.isTransport]
      | some h =>
        have hh := hv h hr
        refine ⟨st.subs.length, [.unsubscribe h], ?_⟩
        simp [run, step, setConnected, getElem?_updateAt, hc, onConnect,
          unsubscribe, subscribe, Hook.emit, hl, hr, calls_append, calls, Action.isTransport]
        omega
    · have hh := hv s hs
      refine ⟨st.subs.length, [.unsubscribe s], ?_⟩
      simp [run, step, setConnected, getElem?_updateAt, hc, onConnect,
        unsubscribe, subscribe, Hook.emit, hl, hs, calls_append, calls, Action.isTransport]
      omega

theorem run_append (rt : Runtime α) (a b : List (Event α)) (st : Hook α) :
    run rt (a ++ b) st = run rt b (run rt a st) := by
  simp [run, List.foldl_append]

theorem captured_updateAt (f : Client → Client) (hf : ∀ x, (f x).captured = x.captured)
    (i j : Nat) (l : List Client) :
    ((updateAt f i l)[j]?).map Client.captured = (l[j]?).map Client.captured := by
  rw [getElem?_updateAt]
  split
  · cases l[j]? <;> simp [hf]
  · rfl

theorem setConnected_captured (c : Nat) (b : Bool) (st : Hook α) (j : Nat) :
    ((setConnected c b st).clients[j]?).map Client.captured =
      (st.clients[j]?).map Client.captured :=
  captured_updateAt (fun cl => { cl with connected := b }) (fun _ => rfl) c j st.clients

theorem onConnect_clients (c : Nat) (podId : PodId) (onMessage : Option Nat) (u sb : Outcome)
    (st : Hook α) :
    (onConnect c podId onMessage u sb st).2.clientRef = st.clientRef ∧
    (onConnect c podId onMessage u sb st).2.clients = st.clients := by
  cases hr : st.subscriptionRef <;> cases u <;> cases sb <;>
    simp [onConnect, unsubscribe, subscribe, Hook.emit, hr]

theorem onDisconnect_clients (podId : PodId) (u : Outcome) (st : Hook α) :
    (onDisconnect podId u st).2.clientRef = st.clientRef ∧
    (onDisconnect podId u st).2.clients = st.clients := by
  cases hr : st.subscriptionRef <;> cases u <;>
    simp [onDisconnect, unsubscribe, Hook.emit, hr]

theorem step_keeps (rt : Runtime α) (e : Event α) (st : Hook α)
    (h : e.keepsMounted = true) :
    (step rt st e).clientRef = st.clientRef ∧
    ∀ j : Nat, ((step rt st e).clients[j]?).map Client.captured =
      (st.clients[j]?).map Client.captured := by
  cases e with
  | effect podId onMessage => simp [Event.keepsMounted] at h
  | cleanup c u => simp [Event.keepsMounted] at h
  | connect c u sb =>
    simp only [step]
    split
    · rw [(onConnect_clients c _ _ u sb _).1, (onConnect_clients c _ _ u sb _).2]
      exact ⟨rfl, fun j => setConnected_captured c true st j⟩
    · exact ⟨rfl, fun _ => rfl⟩
  | disconnect c u =>
    simp only [step]
    split
    · rw [(onDisconnect_clients _ u _).1, (onDisconnect_clients _ u _).2]
      exact ⟨rfl, fun j => setConnected_captured c false st j⟩
    · exact ⟨rfl, fun _ => rfl⟩
  | drop c => exact ⟨rfl, fun j => setConnected_captured c false st j⟩
  | stompError => exact ⟨rfl, fun _ => rfl⟩
  | frame s body cbRaises =>
    have hf := deliver_frame rt s body cbRaises st
    simp only [step]
    rw [hf.1, hf.2.2.1]
    exact ⟨rfl, fun _ => rfl⟩
  | send podId payload =>
    have hf := send_frame rt podId payload st
    simp only [step]
    rw [hf.1, hf.2.2.1]
    exact ⟨rfl, fun _ => rfl⟩

theorem run_keeps (rt : Runtime α) (evs : List (Event α)) (st : Hook α)
    (h : ∀ e ∈ evs, e.keepsMounted = true) :
    (run rt evs st).clientRef = st.clientRef ∧
    ∀ j : Nat, ((run rt evs st).clients[j]?).map Client.captured =
      (st.clients[j]?).map Client.captured := by
  induction evs generalizing st with
  | nil => exact ⟨rfl, fun _ => rfl⟩
  | cons e es ih =>
    have h1 := step_keeps rt e st (h e (List.mem_cons_self e es))
    have h2 := ih (step rt st e) (fun x hx => h x (List.mem_cons_of_mem e hx))
    exact ⟨h2.1.trans h1.1, fun j => (h2.2 j).trans (h1.2 j)⟩

theorem effect_builds (podId : PodId) (onMessage : Option Nat) (st : Hook α)
    (hpod : podId.truthy = true) :
    (effect podId onMessage st).clientRef = some st.clients.length ∧
    (effect podId onMessage st).clients[st.clients.length]? =
      some { podId := podId, onMessage := onMessage, active := true, connected := false } := by
  have hnew : ∀ (f : Client → Client) (x : Client),
      (updateAt f st.clients.length (st.clients ++ [x]))[st.clients.length]? = some (f x) := by
    intro f x
    rw [getElem?_updateAt, if_pos rfl, List.getElem?_append_right (le_refl _)]
    simp
  simp [effect, construct, activate, Hook.emit, hpod, hnew]

/-- C10 fails: on the hook mounted for `room-1`, connected and subscribed, the connection
drops and the client reconnects; when the unsubscribe of the handle left in `subscriptionRef`
raises inside `onConnect`, no subscribe call is made: the ref still holds the handle held
before the reconnect, no handle was created and the old one was not unsubscribed. -/
theorem reconnect_without_resubscribe :
    subscribedRoomOne.subscriptionRef = some 0 ∧
    (run jsonRuntime [.drop 0, .connect 0 .raise .ok] subscribedRoomOne).subscriptionRef =
      some 0 ∧
    (run jsonRuntime [.drop 0, .connect 0 .raise .ok] subscribedRoomOne).subs =
      subscribedRoomOne.subs ∧
    (run jsonRuntime [.drop 0, .connect 0 .raise .ok] subscribedRoomOne).live = [0] ∧
    calls (run jsonRuntime [.drop 0, .connect 0 .raise .ok] subscribedRoomOne).trace =
      [.construct 0, .activate 0, .subscribe 0 "/topic/pod.room-1.chat", .unsubscribe 0] ∧
    (run jsonRuntime [.drop 0, .connect 0 .raise .ok] subscribedRoomOne).clients =
      [{ podId := roomOne, onMessage := some 0, active := true, connected := true }] := by
  refine ⟨by rfl, by rfl, by rfl, by rfl, by rfl, by rfl⟩

/-- C10 as amended: take any reachable state, run the effect for a truthy `podId`, which
builds client `c`, and let any events follow that leave the hook mounted; call the state
reached `st`. Then `clientRef` holds `c`, and after a disconnect of `c` (its `onDisconnect`,
whose unsubscribe may return or raise, or a connection drop that leaves the handle in
`subscriptionRef`) followed by a reconnect in which the transport calls of `onConnect`
return, `subscriptionRef` holds a handle created by that `onConnect`; it is the one live
subscription, a subscription of `c` to "/topic/pod.$(podId).chat" wired to the `onMessage`
of that effect run; the only transport calls made are unsubscribes of the handle held
before and then that subscribe, and any handle held before has been unsubscribed and is no
longer live. -/
theorem reconnect_resubscribes (rt : Runtime α) (evs later : List (Event α)) (podId : PodId)
    (onMessage : Option Nat) (u : Outcome) (gap : Event α) (c : Nat) (st : Hook α)
    (hpod : podId.truthy = true)
    (hlater : ∀ e ∈ later, e.keepsMounted = true)
    (hc : c = (run rt evs init).clients.length)
    (hst : st = run rt (evs ++ .effect podId onMessage :: later) init)
    (hgap : gap = .disconnect c u ∨ gap = .drop c) :
    st.clientRef = some c ∧
    ∃ s delta,
      (run rt [gap, .connect c .ok .ok] st).subscriptionRef = some s ∧
      (run rt [gap, .connect c .ok .ok] st).live = [s] ∧
      (run rt [gap, .connect c .ok .ok] st).subs[s]? =
        some { client := c, dest := "/topic/pod." ++ podId.template ++ ".chat",
               podId := podId, onMessage := onMessage } ∧
      st.subs.length ≤ s ∧
      calls (run rt [gap, .connect c .ok .ok] st).trace =
        calls st.trace ++ delta ++
          [.subscribe c ("/topic/pod." ++ podId.template ++ ".chat")] ∧
      (∀ a, a ∈ delta → ∃ h, a = .unsubscribe h ∧ st.subscriptionRef = some h) ∧
      ∀ h, st.subscriptionRef = some h →
        Action.unsubscribe h ∈ delta ∧ h ∉ (run rt [gap, .connect c .ok .ok] st).live := by
  have hsplit : st = run rt later (effect podId onMessage (run rt evs init)) := by
    rw [hst, run_append]
    rfl
  have hb := effect_builds podId onMessage (run rt evs init) hpod
  have hk := run_keeps rt later (effect podId onMessage (run rt evs init)) hlater
  rw [← hsplit] at hk
  rw [← hc] at hb
  have hcap : (st.clients[c]?).map Client.captured = some (podId, onMessage) := by
    rw [hk.2 c, hb.2]
    rfl
  have hreach : st = run rt (evs ++ .effect podId onMessage :: later) init := hst
  cases hcl : st.clients[c]? with
  | none => simp [hcl] at hcap
  | some cl =>
    rw [hcl] at hcap
    have hp : cl.podId = podId := by
      have := congrArg Prod.fst (Option.some.inj hcap)
      simpa [Client.captured] using this
    have ho : cl.onMessage = onMessage := by
      have := congrArg Prod.snd (Option.some.inj hcap)
      simpa [Client.captured] using this
    have hmain := reconnect_from rt st c cl u gap
      (by rw [hreach]; exact inv_run rt _ inv_init)
      (by rw [hreach]; exact valid_run rt _ valid_init) hcl hgap
    rw [hp, ho] at hmain
    exact ⟨hk.1.trans hb.1, hmain⟩

/-- Witness of C10 as amended: the hook mounted for `room-1`, connected and subscribed; the
connection drops and the client reconnects, which unsubscribes handle 0 and subscribes
handle 1 to "/topic/pod.room-1.chat". -/
theorem reconnect_resubscribes_witness :
    subscribedRoomOne.clientRef = some 0 ∧
    ∃ s delta,
      (run jsonRuntime [.drop 0, .connect 0 .ok .ok] subscribedRoomOne).subscriptionRef =
        some s ∧
      (run jsonRuntime [.drop 0, .connect 0 .ok .ok] subscribedRoomOne).live = [s] ∧
      (run jsonRuntime [.drop 0, .connect 0 .ok .ok] subscribedRoomOne).subs[s]? =
        some { client := 0, dest := "/topic/pod.room-1.chat", podId := .str "room-1",
               onMessage := some 0 } ∧
      subscribedRoomOne.subs.length ≤ s ∧
      calls (run jsonRuntime [.drop 0, .connect 0 .ok .ok] subscribedRoomOne).trace =
        calls subscribedRoomOne.trace ++ delta ++ [.subscribe 0 "/topic/pod.room-1.chat"] ∧
      (∀ a, a ∈ delta → ∃ h, a = .unsubscribe h ∧
        subscribedRoomOne.subscriptionRef = some h) ∧
      ∀ h, subscribedRoomOne.subscriptionRef = some h →
        Action.unsubscribe h ∈ delta ∧
        h ∉ (run jsonRuntime [.drop 0, .connect 0 .ok .ok] subscribedRoomOne).live :=
  reconnect_resubscribes jsonRuntime [] [.connect 0 .ok .ok] roomOne (some 0) .ok (.drop 0) 0
    subscribedRoomOne rfl (by simp [Event.keepsMounted]) rfl rfl (Or.inr rfl)

end UsePodWs
